import Mathlib

/- Verification development for the rnes 6502 CPU emulator core (src/main.rs).

   Modelling conventions:
   * Machine integers are `Nat` with explicit two's-complement wraparound
     (`% 256` for `u8`, `% 65536` for `u16`), the release-profile semantics of
     the source's integer arithmetic; the source's explicit `Wrapping`
     operations coincide with this model.
   * Memory (`[u8; 65536]` in the source) is a function `Nat → Nat`;
     `read_byte`/`write_byte` reduce every byte modulo 256, encoding the `u8`
     element type of the array.
   * The source's `unreachable!` panics become `Except Fault` results.
   * `println!` diagnostics and the `assert!(bit < 8)` in `set_bit`/`unset_bit`
     (all call sites pass literals below 8) have no state effect and are
     dropped. -/

namespace RNes

/- Addressing modes, source enum `Mode`. -/
inductive Mode where
  | Null
  | Implied
  | Accumulator
  | Immediate
  | ZeroPage
  | ZeroPageX
  | ZeroPageY
  | Absolute
  | AbsoluteIndirect
  | AbsoluteX
  | AbsoluteY
  | IndirectX
  | IndirectY
  | Relative
deriving DecidableEq, Repr

/- Operations, source enum `Operation`. -/
inductive Operation where
  | ADC | AND | ASL | BCC | BCS | BEQ | BIT | BMI | BNE | BPL | BRK | BVC | BVS | CLC
  | CLD | CLI | CLV | CMP | CPX | CPY | DEC | DEX | DEY | EOR | INC | INX | INY | JMP
  | JSR | LDA | LDX | LDY | LSR | NOP | ORA | PHA | PHP | PLA | PLP | ROL | ROR | RTI
  | RTS | SBC | SEC | SED | SEI | STA | STX | STY | TAX | TAY | TSX | TXA | TXS | TYA
deriving DecidableEq, Repr

/- Source struct `Instruction`. -/
structure Instruction where
  address_mode : Mode
  operation : Operation
  cycles : Nat
deriving DecidableEq, Repr

/- Source struct `Registers`. -/
structure Registers where
  a_reg : Nat
  y_reg : Nat
  x_reg : Nat
  stack_pointer : Nat
  program_counter : Nat
  cpu_flags : Nat
deriving DecidableEq, Repr

/- Source struct `Emulator`. -/
structure Emulator where
  registers : Registers
  memory : Nat → Nat
  fetched_data : Nat
  address_absolute : Nat
  address_relative : Nat
  opcode : Nat
  cycles : Nat
  current_mode : Mode

/- Panic conditions: the `unreachable!` arms of `fetch` and
   `execute_instruction`. -/
inductive Fault where
  | UnknownOpcode
  | AddressingModeNotInTable
  | OperationNotInTable
  | UnknownAddressingState
deriving DecidableEq, Repr

/- Decidable equality for fallible results, so concrete runs of the embedded
   code can be checked by evaluation. -/
instance {ε α : Type} [DecidableEq ε] [DecidableEq α] :
    DecidableEq (Except ε α) := fun x y =>
  match x, y with
  | .error a, .error b =>
    if h : a = b then .isTrue (by rw [h])
    else .isFalse (fun hc => h (Except.error.inj hc))
  | .ok a, .ok b =>
    if h : a = b then .isTrue (by rw [h])
    else .isFalse (fun hc => h (Except.ok.inj hc))
  | .error _, .ok _ => .isFalse (fun hc => Except.noConfusion hc)
  | .ok _, .error _ => .isFalse (fun hc => Except.noConfusion hc)

/- Source `INSTRUCTION_TABLE` (a `HashMap<u8, Instruction>`), as a partial map
   from opcode byte to descriptor.  Entries transcribed one-for-one. -/
def INSTRUCTION_TABLE (opcode : Nat) : Option Instruction :=
  if opcode = 0x40 then some ⟨.Implied, .RTI, 6⟩
  else if opcode = 0x78 then some ⟨.Implied, .SEI, 2⟩
  else if opcode = 0xD8 then some ⟨.Implied, .CLD, 2⟩
  else if opcode = 0x00 then some ⟨.Implied, .BRK, 7⟩
  else if opcode = 0xA2 then some ⟨.Immediate, .LDX, 2⟩
  else if opcode = 0xA9 then some ⟨.Immediate, .LDA, 2⟩
  else if opcode = 0x95 then some ⟨.ZeroPageX, .STA, 4⟩
  else if opcode = 0xCA then some ⟨.Implied, .DEX, 2⟩
  else if opcode = 0xE8 then some ⟨.Implied, .INX, 2⟩
  else if opcode = 0x9A then some ⟨.Implied, .TXS, 2⟩
  else if opcode = 0xD0 then some ⟨.Relative, .BNE, 2⟩
  else if opcode = 0x69 then some ⟨.Immediate, .ADC, 2⟩
  else if opcode = 0x65 then some ⟨.ZeroPage, .ADC, 3⟩
  else if opcode = 0x75 then some ⟨.ZeroPageX, .ADC, 4⟩
  else if opcode = 0x6D then some ⟨.Absolute, .ADC, 4⟩
  else if opcode = 0x7D then some ⟨.AbsoluteX, .ADC, 4⟩
  else if opcode = 0x79 then some ⟨.AbsoluteY, .ADC, 4⟩
  else if opcode = 0x61 then some ⟨.IndirectX, .ADC, 6⟩
  else if opcode = 0x71 then some ⟨.IndirectY, .ADC, 5⟩
  else none

/- Source `get_flag`. -/
def get_flag (flags which_bit : Nat) : Nat :=
  flags &&& (1 <<< which_bit)

/- Source `set_bit`. -/
def set_bit (original_u8 bit_to_set : Nat) : Nat :=
  original_u8 ||| (1 <<< bit_to_set)

/- Source `unset_bit`; `!(1 << bit)` on a `u8` is `255 ^^^ (1 <<< bit)`. -/
def unset_bit (original_u8 bit_to_unset : Nat) : Nat :=
  original_u8 &&& (255 ^^^ (1 <<< bit_to_unset))

/- Source `read_byte`; the array holds `u8`, hence the reduction mod 256. -/
def read_byte (e : Emulator) (address : Nat) : Nat :=
  e.memory address % 256

/- Source `write_byte` (its constant `true` return is dropped). -/
def write_byte (e : Emulator) (address value : Nat) : Emulator :=
  {e with memory := fun a => if a = address then value % 256 else e.memory a}

/-
ADDRESSING MODES (source comment: they put the value into fetched data /
the absolute or relative address and increment the program counter).
Each returns the source function's `u8` return value as the second component.
-/

/- Source `implied_mode`. -/
def implied_mode (e : Emulator) : Emulator × Nat :=
  ({e with fetched_data := e.registers.a_reg}, 0)

/- Source `immediate_mode`. -/
def immediate_mode (e : Emulator) : Emulator × Nat :=
  let pc := (e.registers.program_counter + 1) % 65536
  ({e with registers := {e.registers with program_counter := pc},
           address_absolute := pc}, 0)

/- Source `indirect_mode` (the JMP-indirect resolver with the emulated
   hardware page-wrap bug). -/
def indirect_mode (e : Emulator) : Emulator × Nat :=
  let pc1 := (e.registers.program_counter + 1) % 65536
  let low := read_byte e pc1
  let pc2 := (pc1 + 1) % 65536
  let high := read_byte e pc2
  let ptr := (high <<< 8) ||| low
  let addr :=
    if low = 0x00FF then
      ((read_byte e (ptr &&& 0xFF00)) <<< 8) ||| read_byte e (ptr + 0)
    else
      ((read_byte e ((ptr + 1) % 65536)) <<< 8) ||| read_byte e (ptr + 0)
  ({e with registers := {e.registers with program_counter := pc2},
           address_absolute := addr}, 0)

/- Source `indirect_mode_page_zero_x`; `x_reg + 1` is a `u8` addition. -/
def indirect_mode_page_zero_x (e : Emulator) : Emulator × Nat :=
  let pc1 := (e.registers.program_counter + 1) % 65536
  let low := read_byte e pc1
  let pc2 := (pc1 + 1) % 65536
  let high := read_byte e pc2
  let ptr := (high <<< 8) ||| low
  let lo := (read_byte e ((ptr + e.registers.x_reg) % 65536)) &&& 0x00FF
  let hi := (read_byte e ((ptr + ((e.registers.x_reg + 1) % 256)) % 65536)) &&& 0x00FF
  ({e with registers := {e.registers with program_counter := pc2},
           address_absolute := (hi <<< 8) ||| lo}, 0)

/- Source `indirect_mode_page_zero_y`. -/
def indirect_mode_page_zero_y (e : Emulator) : Emulator × Nat :=
  let pc1 := (e.registers.program_counter + 1) % 65536
  let low := read_byte e pc1
  let pc2 := (pc1 + 1) % 65536
  let high := read_byte e pc2
  let ptr := (high <<< 8) ||| low
  let lo := read_byte e (ptr &&& 0x00FF)
  let hi := read_byte e (((ptr + 1) % 65536) &&& 0x00FF)
  let addr := (hi <<< 8) ||| lo
  ({e with registers := {e.registers with program_counter := pc2},
           address_absolute := addr},
   if (addr &&& 0xFF00) ≠ (high <<< 8) then 1 else 0)

/- Source `absolute_mode`. -/
def absolute_mode (e : Emulator) : Emulator × Nat :=
  let pc1 := (e.registers.program_counter + 1) % 65536
  let low := read_byte e pc1
  let pc2 := (pc1 + 1) % 65536
  let high := read_byte e pc2
  ({e with registers := {e.registers with program_counter := pc2},
           address_absolute := (high <<< 8) ||| low}, 0)

/- Source `absolute_mode_x`. -/
def absolute_mode_x (e : Emulator) : Emulator × Nat :=
  let pc1 := (e.registers.program_counter + 1) % 65536
  let low := read_byte e pc1
  let pc2 := (pc1 + 1) % 65536
  let high := read_byte e pc2
  let addr := (((high <<< 8) ||| low) + e.registers.x_reg) % 65536
  ({e with registers := {e.registers with program_counter := pc2},
           address_absolute := addr},
   if (addr &&& 0xFF00) ≠ (high <<< 8) then 1 else 0)

/- Source `absolute_mode_y`. -/
def absolute_mode_y (e : Emulator) : Emulator × Nat :=
  let pc1 := (e.registers.program_counter + 1) % 65536
  let low := read_byte e pc1
  let pc2 := (pc1 + 1) % 65536
  let high := read_byte e pc2
  let addr := (((high <<< 8) ||| low) + e.registers.y_reg) % 65536
  ({e with registers := {e.registers with program_counter := pc2},
           address_absolute := addr},
   if (addr &&& 0xFF00) ≠ (high <<< 8) then 1 else 0)

/- Source `zero_page_mode`. -/
def zero_page_mode (e : Emulator) : Emulator × Nat :=
  let pc1 := (e.registers.program_counter + 1) % 65536
  let val := read_byte e pc1
  ({e with registers := {e.registers with program_counter := pc1},
           address_absolute := val &&& 0x00FF}, 0)

/- Source `zero_page_x_mode`; the operand-plus-index sum is a `u8` addition. -/
def zero_page_x_mode (e : Emulator) : Emulator × Nat :=
  let pc1 := (e.registers.program_counter + 1) % 65536
  let val := (read_byte e pc1 + e.registers.x_reg) % 256
  ({e with registers := {e.registers with program_counter := pc1},
           address_absolute := val &&& 0x00FF}, 0)

/- Source `zero_page_y_mode`. -/
def zero_page_y_mode (e : Emulator) : Emulator × Nat :=
  let pc1 := (e.registers.program_counter + 1) % 65536
  let val := (read_byte e pc1 + e.registers.y_reg) % 256
  ({e with registers := {e.registers with program_counter := pc1},
           address_absolute := val &&& 0x00FF}, 0)

/- Source `relative_mode`: it advances the program counter twice, reads two
   bytes, combines them little-endian into `address_relative`, then ORs in
   0xFF00 when bit 7 of that value is set. -/
def relative_mode (e : Emulator) : Emulator × Nat :=
  let pc1 := (e.registers.program_counter + 1) % 65536
  let low := read_byte e pc1
  let pc2 := (pc1 + 1) % 65536
  let high := read_byte e pc2
  let rel0 := (high <<< 8) ||| low
  let rel := if rel0 &&& 0x80 ≠ 0 then rel0 ||| 0xFF00 else rel0
  ({e with registers := {e.registers with program_counter := pc2},
           address_relative := rel}, 0)

/- Source `fetch`: only the Implied and Immediate addressing states are
   handled; every other `current_mode` hits
   `unreachable!("Unknown Addressing State")`. -/
def fetch (e : Emulator) : Except Fault Nat :=
  match e.current_mode with
  | .Implied => .ok (read_byte e e.address_absolute)
  | .Immediate => .ok (read_byte e e.address_absolute)
  | _ => .error .UnknownAddressingState

/- Source `handle_flags` (carry from a result above 255, zero from the full
   result being 0, negative from bit 7 of the result). -/
def handle_flags (e : Emulator) (result : Nat) : Emulator :=
  let flags := e.registers.cpu_flags
  let flags := if result > 255 then set_bit flags 0 else unset_bit flags 0
  let flags := if result = 0 then set_bit flags 1 else unset_bit flags 1
  let flags := if result &&& (1 <<< 7) ≠ 0 then set_bit flags 7 else unset_bit flags 7
  {e with registers := {e.registers with cpu_flags := flags}}

/-
ACTUAL OPERATIONS
-/

/- Source `sei`. -/
def sei (e : Emulator) : Emulator × Nat :=
  ({e with registers :=
      {e.registers with cpu_flags := set_bit e.registers.cpu_flags 2}}, 0)

/- Source `rti`: the stack pointer is first incremented through a `u16`
   `Wrapping` value (`wrap_sp`), the flag byte is read at `wrap_sp + 0x0100`,
   bits 4 and 5 are cleared, then the program counter is pulled low byte
   first with two further `u8` stack-pointer increments. -/
def rti (e : Emulator) : Emulator × Nat :=
  let wrap_sp := (e.registers.stack_pointer + 1) % 65536
  let sp1 := wrap_sp % 256
  let flags := read_byte e ((wrap_sp + 0x0100) % 65536)
  let flags := unset_bit flags 4
  let flags := unset_bit flags 5
  let sp2 := (sp1 + 1) % 256
  let pc := read_byte e (0x0100 + sp2)
  let sp3 := (sp2 + 1) % 256
  let pc := pc ||| ((read_byte e (0x0100 + sp3)) <<< 8)
  ({e with registers :=
      {e.registers with stack_pointer := sp3, cpu_flags := flags,
                        program_counter := pc}}, 0)

/- Source `cld` (returns no value in the source). -/
def cld (e : Emulator) : Emulator :=
  {e with registers :=
    {e.registers with cpu_flags := unset_bit e.registers.cpu_flags 3}}

/- Source `sta`. -/
def sta (e : Emulator) : Emulator × Nat :=
  (write_byte e e.address_absolute e.registers.a_reg, 0)

/- Source `inx`: the increment goes through a `u16` `Wrapping` value and is
   truncated back to `u8`.  The zero-flag branch has no `else`, and the
   bit-7 branch calls `unset_bit` on the negative flag (transcribed as
   written). -/
def inx (e : Emulator) : Emulator × Nat :=
  let x := ((e.registers.x_reg + 1) % 65536) % 256
  let e := {e with registers := {e.registers with x_reg := x}}
  let e := if x = 0 then
      {e with registers :=
        {e.registers with cpu_flags := set_bit e.registers.cpu_flags 1}}
    else e
  let e := if x &&& (1 <<< 7) ≠ 0 then
      {e with registers :=
        {e.registers with cpu_flags := unset_bit e.registers.cpu_flags 7}}
    else e
  (e, 0)

/- Source `dex` (the dead `let breaks = 0` debug half is dropped). -/
def dex (e : Emulator) : Emulator × Nat :=
  let x := ((e.registers.x_reg + 65535) % 65536) % 256
  let e := {e with registers := {e.registers with x_reg := x}}
  let e := if x = 0 then
      {e with registers :=
        {e.registers with cpu_flags := set_bit e.registers.cpu_flags 1}}
    else
      {e with registers :=
        {e.registers with cpu_flags := unset_bit e.registers.cpu_flags 1}}
  let e := if x &&& (1 <<< 7) ≠ 0 then
      {e with registers :=
        {e.registers with cpu_flags := set_bit e.registers.cpu_flags 7}}
    else
      {e with registers :=
        {e.registers with cpu_flags := unset_bit e.registers.cpu_flags 7}}
  (e, 0)

/- Source `lda`. -/
def lda (e : Emulator) : Except Fault (Emulator × Nat) :=
  match fetch e with
  | .error f => .error f
  | .ok result =>
    let e := handle_flags e result
    let e := {e with registers := {e.registers with a_reg := result}}
    let e := if (e.address_absolute &&& 0xFF00) ≠
        (e.registers.program_counter &&& 0xFF00) then
        {e with cycles := (e.cycles + 1) % 256}
      else e
    let e := if result = 0 then
        {e with registers :=
          {e.registers with cpu_flags := set_bit e.registers.cpu_flags 1}}
      else
        {e with registers :=
          {e.registers with cpu_flags := unset_bit e.registers.cpu_flags 1}}
    let e := if result &&& (1 <<< 7) ≠ 0 then
        {e with registers :=
          {e.registers with cpu_flags := set_bit e.registers.cpu_flags 7}}
      else
        {e with registers :=
          {e.registers with cpu_flags := unset_bit e.registers.cpu_flags 7}}
    .ok (e, 0)

/- Source `ldx`. -/
def ldx (e : Emulator) : Except Fault (Emulator × Nat) :=
  match fetch e with
  | .error f => .error f
  | .ok result =>
    let e := handle_flags e result
    let e := {e with registers := {e.registers with x_reg := result}}
    let e := if (e.address_absolute &&& 0xFF00) ≠
        (e.registers.program_counter &&& 0xFF00) then
        {e with cycles := (e.cycles + 1) % 256}
      else e
    let e := if result = 0 then
        {e with registers :=
          {e.registers with cpu_flags := set_bit e.registers.cpu_flags 1}}
      else
        {e with registers :=
          {e.registers with cpu_flags := unset_bit e.registers.cpu_flags 1}}
    let e := if result &&& (1 <<< 7) ≠ 0 then
        {e with registers :=
          {e.registers with cpu_flags := set_bit e.registers.cpu_flags 7}}
      else
        {e with registers :=
          {e.registers with cpu_flags := unset_bit e.registers.cpu_flags 7}}
    .ok (e, 0)

/- Source `txs`: copies X into the stack pointer and then updates the zero
   and negative flags from the copied value (transcribed as written). -/
def txs (e : Emulator) : Emulator × Nat :=
  let e := {e with registers :=
    {e.registers with stack_pointer := e.registers.x_reg}}
  let e := if e.registers.stack_pointer = 0 then
      {e with registers :=
        {e.registers with cpu_flags := set_bit e.registers.cpu_flags 1}}
    else
      {e with registers :=
        {e.registers with cpu_flags := unset_bit e.registers.cpu_flags 1}}
  let e := if e.registers.stack_pointer &&& (1 <<< 7) ≠ 0 then
      {e with registers :=
        {e.registers with cpu_flags := set_bit e.registers.cpu_flags 7}}
    else
      {e with registers :=
        {e.registers with cpu_flags := unset_bit e.registers.cpu_flags 7}}
  (e, 0)

/- Source `pha` (push accumulator; 0x0100 is the start of the stack page). -/
def pha (e : Emulator) : Emulator × Nat :=
  let e := write_byte e (0x0100 + e.registers.stack_pointer) e.registers.a_reg
  ({e with registers :=
      {e.registers with stack_pointer :=
        (e.registers.stack_pointer + 255) % 256}}, 0)

/- Source `pla` (pull accumulator). -/
def pla (e : Emulator) : Emulator × Nat :=
  let e := {e with registers :=
    {e.registers with stack_pointer := (e.registers.stack_pointer + 1) % 256}}
  let a := read_byte e (0x0100 + e.registers.stack_pointer)
  let e := {e with registers := {e.registers with a_reg := a}}
  (handle_flags e e.registers.a_reg, 0)

/- Source `adc`.  The overflow-flag branch computes
   `(a_reg ^ fetched) & (a_reg ^ tmp) & 0x0080 == 1` — a comparison that can
   never hold after masking with 0x0080 — and both branches call
   `set_bit`/`unset_bit` WITHOUT assigning the result back to `cpu_flags`,
   so the overflow check changes nothing; the model therefore leaves the
   flag byte exactly as `handle_flags` produced it. -/
def adc (e : Emulator) : Except Fault (Emulator × Nat) :=
  match fetch e with
  | .error f => .error f
  | .ok fetched =>
    let tmp := e.registers.a_reg + fetched + get_flag e.registers.cpu_flags 0
    let e := handle_flags e tmp
    .ok ({e with registers :=
        {e.registers with a_reg := tmp &&& 0x00FF}}, 1)

/- Source `bne` (branch when the zero flag is clear; the program counter and
   relative offset are added through `u16` `Wrapping` values). -/
def bne (e : Emulator) : Emulator × Nat :=
  if get_flag e.registers.cpu_flags 1 = 0 then
    let e := {e with cycles := (e.cycles + 1) % 256}
    let addr := (e.registers.program_counter + e.address_relative) % 65536
    let e := {e with address_absolute := addr}
    let e := if (addr &&& 0xFF00) ≠ (e.registers.program_counter &&& 0xFF00) then
        {e with cycles := (e.cycles + 1) % 256}
      else e
    ({e with registers := {e.registers with program_counter := addr}}, 0)
  else (e, 0)

/- Source `and` (bitwise AND into the accumulator). -/
def and (e : Emulator) : Except Fault (Emulator × Nat) :=
  match fetch e with
  | .error f => .error f
  | .ok fetched =>
    let result := e.registers.a_reg &&& fetched
    let e := {e with registers := {e.registers with a_reg := result}}
    .ok (handle_flags e result, 1)

/- Source `nmi`: pushes the program counter (high, low) and the flag byte
   with bits 4, 5 and 2 forced set, then loads the program counter from the
   vector at 0xFFFA and charges 8 cycles.  Never maskable. -/
def nmi (e : Emulator) : Emulator :=
  let e := write_byte e (0x0100 + e.registers.stack_pointer)
    ((e.registers.program_counter >>> 8) &&& 0x00FF)
  let e := {e with registers :=
    {e.registers with stack_pointer := (e.registers.stack_pointer + 255) % 256}}
  let e := write_byte e (0x0100 + e.registers.stack_pointer)
    (e.registers.program_counter &&& 0x00FF)
  let e := {e with registers :=
    {e.registers with stack_pointer := (e.registers.stack_pointer + 255) % 256}}
  let e := {e with registers :=
    {e.registers with cpu_flags := set_bit e.registers.cpu_flags 4}}
  let e := {e with registers :=
    {e.registers with cpu_flags := set_bit e.registers.cpu_flags 5}}
  let e := {e with registers :=
    {e.registers with cpu_flags := set_bit e.registers.cpu_flags 2}}
  let e := write_byte e (0x0100 + e.registers.stack_pointer) e.registers.cpu_flags
  let e := {e with registers :=
    {e.registers with stack_pointer := (e.registers.stack_pointer + 255) % 256}}
  let e := {e with address_absolute := 0xFFFA}
  let lo := read_byte e (e.address_absolute + 0)
  let hi := read_byte e (e.address_absolute + 1)
  {e with registers :=
    {e.registers with program_counter := (hi <<< 8) ||| lo}, cycles := 8}

/- Source `irq`: identical entry sequence guarded by the interrupt-disable
   flag (bit 2), with vector 0xFFFE and 7 cycles. -/
def irq (e : Emulator) : Emulator :=
  if get_flag e.registers.cpu_flags 2 = 0 then
    let e := write_byte e (0x0100 + e.registers.stack_pointer)
      ((e.registers.program_counter >>> 8) &&& 0x00FF)
    let e := {e with registers :=
      {e.registers with stack_pointer := (e.registers.stack_pointer + 255) % 256}}
    let e := write_byte e (0x0100 + e.registers.stack_pointer)
      (e.registers.program_counter &&& 0x00FF)
    let e := {e with registers :=
      {e.registers with stack_pointer := (e.registers.stack_pointer + 255) % 256}}
    let e := {e with registers :=
      {e.registers with cpu_flags := set_bit e.registers.cpu_flags 4}}
    let e := {e with registers :=
      {e.registers with cpu_flags := set_bit e.registers.cpu_flags 5}}
    let e := {e with registers :=
      {e.registers with cpu_flags := set_bit e.registers.cpu_flags 2}}
    let e := write_byte e (0x0100 + e.registers.stack_pointer) e.registers.cpu_flags
    let e := {e with registers :=
      {e.registers with stack_pointer := (e.registers.stack_pointer + 255) % 256}}
    let e := {e with address_absolute := 0xFFFE}
    let lo := read_byte e (e.address_absolute + 0)
    let hi := read_byte e (e.address_absolute + 1)
    {e with registers :=
      {e.registers with program_counter := (hi <<< 8) ||| lo}, cycles := 7}
  else e

/- Source `reset`. -/
def reset (e : Emulator) : Emulator :=
  let e := {e with registers :=
    {e.registers with a_reg := 0, x_reg := 0, y_reg := 0,
                      stack_pointer := 0xFD, cpu_flags := 0x00}}
  let e := {e with address_absolute := 0xFFFC}
  let lo := read_byte e (e.address_absolute + 0)
  let hi := read_byte e (e.address_absolute + 1)
  let e := {e with registers :=
    {e.registers with program_counter := (hi <<< 8) ||| lo}}
  {e with address_relative := 0x0000, address_absolute := 0x0000,
          fetched_data := 0x00, cycles := 8}

/- First half of source `execute_instruction`: the match on
   `instruction.address_mode`.  Every arm first charges the descriptor's base
   cycles, then runs the resolver (the Implied and Immediate arms discard the
   resolver's returned value, the others add it to the cycle counter), then
   records the current addressing mode.  The fall-through arm is
   `unreachable!("Addressing Mode Not In Instruction Table")`. -/
def execute_addressing (instruction : Instruction) (e : Emulator) :
    Except Fault Emulator :=
  match instruction.address_mode with
  | .Implied =>
    let e := {e with cycles := (e.cycles + instruction.cycles) % 256}
    let e := (implied_mode e).1
    .ok {e with current_mode := .Implied}
  | .Immediate =>
    let e := {e with cycles := (e.cycles + instruction.cycles) % 256}
    let e := (immediate_mode e).1
    .ok {e with current_mode := .Immediate}
  | .ZeroPage =>
    let e := {e with cycles := (e.cycles + instruction.cycles) % 256}
    let p := zero_page_mode e
    .ok {p.1 with cycles := (p.1.cycles + p.2) % 256, current_mode := .ZeroPage}
  | .ZeroPageX =>
    let e := {e with cycles := (e.cycles + instruction.cycles) % 256}
    let p := zero_page_x_mode e
    .ok {p.1 with cycles := (p.1.cycles + p.2) % 256, current_mode := .ZeroPageX}
  | .ZeroPageY =>
    let e := {e with cycles := (e.cycles + instruction.cycles) % 256}
    let p := zero_page_y_mode e
    .ok {p.1 with cycles := (p.1.cycles + p.2) % 256, current_mode := .ZeroPageY}
  | .Absolute =>
    let e := {e with cycles := (e.cycles + instruction.cycles) % 256}
    let p := absolute_mode e
    .ok {p.1 with cycles := (p.1.cycles + p.2) % 256, current_mode := .Absolute}
  | .AbsoluteX =>
    let e := {e with cycles := (e.cycles + instruction.cycles) % 256}
    let p := absolute_mode_x e
    .ok {p.1 with cycles := (p.1.cycles + p.2) % 256, current_mode := .AbsoluteX}
  | .AbsoluteY =>
    let e := {e with cycles := (e.cycles + instruction.cycles) % 256}
    let p := absolute_mode_y e
    .ok {p.1 with cycles := (p.1.cycles + p.2) % 256, current_mode := .AbsoluteY}
  | .IndirectX =>
    let e := {e with cycles := (e.cycles + instruction.cycles) % 256}
    let p := indirect_mode_page_zero_x e
    .ok {p.1 with cycles := (p.1.cycles + p.2) % 256, current_mode := .IndirectX}
  | .IndirectY =>
    let e := {e with cycles := (e.cycles + instruction.cycles) % 256}
    let p := indirect_mode_page_zero_y e
    .ok {p.1 with cycles := (p.1.cycles + p.2) % 256, current_mode := .IndirectY}
  | .Relative =>
    let e := {e with cycles := (e.cycles + instruction.cycles) % 256}
    let p := relative_mode e
    .ok {p.1 with cycles := (p.1.cycles + p.2) % 256, current_mode := .Relative}
  | _ => .error .AddressingModeNotInTable

/- Second half of source `execute_instruction`: the match on
   `instruction.operation`.  The returned Bool records the early `return` of
   the BNE arm (which skips the final program-counter increment).  The LDX
   arm runs `ldx` twice, exactly as the source does
   (`self.ldx(); self.cycles += self.ldx();`).  The fall-through arm — which
   includes every ADC table entry — is
   `unreachable!("Operation Not In Instruction Table")`. -/
def execute_operation (operation : Operation) (e : Emulator) :
    Except Fault (Emulator × Bool) :=
  match operation with
  | .RTI =>
    let p := rti e
    .ok ({p.1 with cycles := (p.1.cycles + p.2) % 256}, false)
  | .AND =>
    match and e with
    | .error f => .error f
    | .ok p => .ok ({p.1 with cycles := (p.1.cycles + p.2) % 256}, false)
  | .BRK => .ok (e, false)
  | .SEI => .ok ((sei e).1, false)
  | .CLD => .ok (cld e, false)
  | .LDX =>
    match ldx e with
    | .error f => .error f
    | .ok p =>
      match ldx p.1 with
      | .error f => .error f
      | .ok q => .ok ({q.1 with cycles := (q.1.cycles + q.2) % 256}, false)
  | .TXS =>
    let p := txs e
    .ok ({p.1 with cycles := (p.1.cycles + p.2) % 256}, false)
  | .LDA =>
    match lda e with
    | .error f => .error f
    | .ok p => .ok ({p.1 with cycles := (p.1.cycles + p.2) % 256}, false)
  | .STA =>
    let p := sta e
    .ok ({p.1 with cycles := (p.1.cycles + p.2) % 256}, false)
  | .DEX =>
    let p := dex e
    .ok ({p.1 with cycles := (p.1.cycles + p.2) % 256}, false)
  | .INX =>
    let p := inx e
    .ok ({p.1 with cycles := (p.1.cycles + p.2) % 256}, false)
  | .BNE =>
    let p := bne e
    .ok ({p.1 with cycles := (p.1.cycles + p.2) % 256}, true)
  | _ => .error .OperationNotInTable

/- Source `execute_instruction`: table lookup (a missing entry is
   `unreachable!("Opcode Not In Instruction Table!")`), addressing-mode
   dispatch, operation dispatch, then `program_counter += 1` unless the BNE
   arm returned early. -/
def execute_instruction (e : Emulator) : Except Fault Emulator :=
  match INSTRUCTION_TABLE e.opcode with
  | none => .error .UnknownOpcode
  | some instruction =>
    match execute_addressing instruction e with
    | .error f => .error f
    | .ok e1 =>
      match execute_operation instruction.operation e1 with
      | .error f => .error f
      | .ok (e2, early) =>
        if early then .ok e2
        else .ok {e2 with registers :=
          {e2.registers with program_counter :=
            (e2.registers.program_counter + 1) % 65536}}

/- The opcode fetch at the top of source `clock`
   (`self.opcode = self.memory[pc as usize]`). -/
def tick_fetch (e : Emulator) : Emulator :=
  {e with opcode := read_byte e e.registers.program_counter}

/- Source `clock`: when the cycle counter is zero, fetch the opcode and run
   `execute_instruction`; in every case the counter is then decremented by
   one (`u8` wraparound). -/
def clock (e : Emulator) : Except Fault Emulator :=
  if e.cycles = 0 then
    match execute_instruction (tick_fetch e) with
    | .error f => .error f
    | .ok e2 => .ok {e2 with cycles := (e2.cycles + 255) % 256}
  else .ok {e with cycles := (e.cycles + 255) % 256}

/- The base cycle cost the scheduler charges for the instruction about to be
   fetched at the program counter (0 when the opcode has no table entry,
   a case in which the tick faults anyway). -/
def base_cycles (e : Emulator) : Nat :=
  match INSTRUCTION_TABLE (read_byte e e.registers.program_counter) with
  | some instruction => instruction.cycles
  | none => 0

/- The addressing-mode surcharge of one tick: the value returned by the
   resolver that `execute_addressing` runs for the instruction about to be
   fetched (0 for the Implied and Immediate arms, whose return the source
   discards, and for the modes outside the dispatch). -/
def addressing_surcharge (e : Emulator) : Nat :=
  match INSTRUCTION_TABLE (read_byte e e.registers.program_counter) with
  | none => 0
  | some instruction =>
    let e := tick_fetch e
    match instruction.address_mode with
    | .ZeroPage => (zero_page_mode e).2
    | .ZeroPageX => (zero_page_x_mode e).2
    | .ZeroPageY => (zero_page_y_mode e).2
    | .Absolute => (absolute_mode e).2
    | .AbsoluteX => (absolute_mode_x e).2
    | .AbsoluteY => (absolute_mode_y e).2
    | .IndirectX => (indirect_mode_page_zero_x e).2
    | .IndirectY => (indirect_mode_page_zero_y e).2
    | .Relative => (relative_mode e).2
    | _ => 0

/- The operation surcharge of one tick: every cycle the operation dispatch
   adds beyond what the addressing dispatch already charged (this covers both
   an operation's returned extra cycle and its direct `cycles += 1`
   increments, e.g. the page-cross penalty inside `lda`). -/
def operation_surcharge (e : Emulator) : Nat :=
  match INSTRUCTION_TABLE (read_byte e e.registers.program_counter) with
  | none => 0
  | some instruction =>
    match execute_addressing instruction (tick_fetch e) with
    | .error _ => 0
    | .ok e1 =>
      match execute_operation instruction.operation e1 with
      | .error _ => 0
      | .ok (e2, _) => (e2.cycles + 256 - e1.cycles) % 256

/-
Concrete machine states used to evaluate the embedded code on specific
inputs.
-/

/- A=0x80, carry-in set, Immediate operand 0x7F at address 0x10. -/
def stADC : Emulator :=
  { registers := { a_reg := 0x80, y_reg := 0, x_reg := 0, stack_pointer := 0xFD,
                   program_counter := 0, cpu_flags := 0x01 },
    memory := fun a => if a = 0x10 then 0x7F else 0,
    fetched_data := 0, address_absolute := 0x10, address_relative := 0,
    opcode := 0, cycles := 0, current_mode := .Immediate }

/- Idle scheduler about to fetch `LDA #$05` (opcode 0xA9) at address 0. -/
def stCLK : Emulator :=
  { registers := { a_reg := 0, y_reg := 0, x_reg := 0, stack_pointer := 0,
                   program_counter := 0, cpu_flags := 0 },
    memory := fun a => if a = 0 then 0xA9 else if a = 1 then 0x05 else 0,
    fetched_data := 0, address_absolute := 0, address_relative := 0,
    opcode := 0, cycles := 0, current_mode := .Null }

/- Opcode at 0x8000, branch operand byte 0x05 at 0x8001, next byte 0x01. -/
def stREL : Emulator :=
  { registers := { a_reg := 0, y_reg := 0, x_reg := 0, stack_pointer := 0,
                   program_counter := 0x8000, cpu_flags := 0 },
    memory := fun a => if a = 0x8001 then 0x05 else if a = 0x8002 then 0x01 else 0,
    fetched_data := 0, address_absolute := 0, address_relative := 0,
    opcode := 0, cycles := 0, current_mode := .Null }

/- X=0x80 with a cleared flag byte, about to run TXS. -/
def stTXS : Emulator :=
  { registers := { a_reg := 0, y_reg := 0, x_reg := 0x80, stack_pointer := 0,
                   program_counter := 0, cpu_flags := 0 },
    memory := fun _ => 0,
    fetched_data := 0, address_absolute := 0, address_relative := 0,
    opcode := 0, cycles := 0, current_mode := .Null }

/- Reset vector 0xFFFC/0xFFFD = 0x00/0x80; every other field dirty. -/
def stRST : Emulator :=
  { registers := { a_reg := 9, y_reg := 9, x_reg := 9, stack_pointer := 9,
                   program_counter := 9, cpu_flags := 9 },
    memory := fun a => if a = 0xFFFC then 0x00 else if a = 0xFFFD then 0x80 else 7,
    fetched_data := 9, address_absolute := 9, address_relative := 9,
    opcode := 9, cycles := 9, current_mode := .Null }

/- Zero-page,X resolution of operand 0xFF with X=0x02. -/
def stZPX : Emulator :=
  { registers := { a_reg := 0, y_reg := 0, x_reg := 0x02, stack_pointer := 0,
                   program_counter := 0x8000, cpu_flags := 0 },
    memory := fun a => if a = 0x8001 then 0xFF else 0,
    fetched_data := 0, address_absolute := 0, address_relative := 0,
    opcode := 0, cycles := 0, current_mode := .Null }

/- Indirect JMP with pointer 0x02FF: target low at 0x02FF = 0x00, start of
   the same page 0x0200 = 0x80, start of the next page 0x0300 = 0x99. -/
def stIND : Emulator :=
  { registers := { a_reg := 0, y_reg := 0, x_reg := 0, stack_pointer := 0,
                   program_counter := 0x8000, cpu_flags := 0 },
    memory := fun a => if a = 0x8001 then 0xFF else if a = 0x8002 then 0x02 else
      if a = 0x02FF then 0x00 else if a = 0x0200 then 0x80 else
      if a = 0x0300 then 0x99 else 0,
    fetched_data := 0, address_absolute := 0, address_relative := 0,
    opcode := 0, cycles := 0, current_mode := .Null }

/- Interrupt-disable flag set (bit 2), distinct vector bytes in memory. -/
def stIRQmasked : Emulator :=
  { registers := { a_reg := 0, y_reg := 0, x_reg := 0, stack_pointer := 0xFD,
                   program_counter := 0x1234, cpu_flags := 0x04 },
    memory := fun a => if a = 0xFFFA then 0xAA else if a = 0xFFFB then 0xBB else
      if a = 0xFFFE then 0xCC else if a = 0xFFFF then 0xDD else 0,
    fetched_data := 0, address_absolute := 0, address_relative := 0,
    opcode := 0, cycles := 0, current_mode := .Null }

/- Same machine with the interrupt-disable flag clear. -/
def stIRQclear : Emulator :=
  { registers := { a_reg := 0, y_reg := 0, x_reg := 0, stack_pointer := 0xFD,
                   program_counter := 0x1234, cpu_flags := 0x00 },
    memory := fun a => if a = 0xFFFA then 0xAA else if a = 0xFFFB then 0xBB else
      if a = 0xFFFE then 0xCC else if a = 0xFFFF then 0xDD else 0,
    fetched_data := 0, address_absolute := 0, address_relative := 0,
    opcode := 0, cycles := 0, current_mode := .Null }

/- A=0x42 with the stack pointer at the wraparound value 0x00. -/
def stSTK : Emulator :=
  { registers := { a_reg := 0x42, y_reg := 0, x_reg := 0, stack_pointer := 0,
                   program_counter := 0, cpu_flags := 0 },
    memory := fun _ => 0,
    fetched_data := 0, address_absolute := 0, address_relative := 0,
    opcode := 0, cycles := 0, current_mode := .Null }

/- Opcode 0x65 (ADC zero page) latched, about to execute. -/
def stOP65 : Emulator :=
  { registers := { a_reg := 0, y_reg := 0, x_reg := 0, stack_pointer := 0,
                   program_counter := 0, cpu_flags := 0 },
    memory := fun _ => 0,
    fetched_data := 0, address_absolute := 0, address_relative := 0,
    opcode := 0x65, cycles := 0, current_mode := .Null }

/- Opcode 0x69 (ADC immediate) latched, about to execute. -/
def stOP69 : Emulator :=
  { registers := { a_reg := 0, y_reg := 0, x_reg := 0, stack_pointer := 0,
                   program_counter := 0, cpu_flags := 0 },
    memory := fun _ => 0,
    fetched_data := 0, address_absolute := 0, address_relative := 0,
    opcode := 0x69, cycles := 0, current_mode := .Null }

/-
THEOREMS
-/

theorem and_255_eq_mod (x : Nat) : x &&& 255 = x % 256 := by
  have h := Nat.and_pow_two_sub_one_eq_mod x 8
  norm_num at h
  exact h

/-- Claim C6: for every state, the zero-page,X resolver produces the
effective address `(operand + X) mod 256`, which never exceeds 0x00FF; at
operand 0xFF with X = 0x02 the effective address is 0x0001. -/
theorem C6_zero_page_x_wraps (e : Emulator) :
    (zero_page_x_mode e).1.address_absolute =
      (read_byte e ((e.registers.program_counter + 1) % 65536) +
        e.registers.x_reg) % 256 ∧
    (zero_page_x_mode e).1.address_absolute ≤ 0xFF ∧
    (zero_page_x_mode stZPX).1.address_absolute = 0x0001 := by
  refine ⟨?_, ?_, by decide⟩ <;>
    simp only [zero_page_x_mode, and_255_eq_mod] <;> omega

/-- Claim C7: the indirect (JMP) resolver reads the target low byte from the
pointer address; the target high byte comes from the start of the same page
(`pointer &&& 0xFF00`) when the pointer's low byte is 0xFF, and from
`pointer + 1` otherwise.  At the spec's example (pointer 0x02FF) the high
byte is taken from 0x0200, not 0x0300. -/
theorem C7_indirect_page_wrap (e : Emulator) :
    ((indirect_mode e).1.address_absolute =
      (let pc1 := (e.registers.program_counter + 1) % 65536
       let low := read_byte e pc1
       let high := read_byte e ((pc1 + 1) % 65536)
       let ptr := (high <<< 8) ||| low
       if low = 0xFF then
         ((read_byte e (ptr &&& 0xFF00)) <<< 8) ||| read_byte e ptr
       else
         ((read_byte e ((ptr + 1) % 65536)) <<< 8) ||| read_byte e ptr)) ∧
    (indirect_mode stIND).1.address_absolute = 0x8000 := by
  exact ⟨rfl, by decide⟩

/-- Claim C5: with memory[0xFFFC] = 0x00 and memory[0xFFFD] = 0x80, `reset`
sets the program counter to 0x8000, clears A/X/Y, sets the stack pointer to
0xFD, clears the flag byte, and clears the fetched operand and the absolute
and relative addresses. -/
theorem C5_reset_state (e : Emulator)
    (h1 : e.memory 0xFFFC = 0x00) (h2 : e.memory 0xFFFD = 0x80) :
    (reset e).registers.program_counter = 0x8000 ∧
    (reset e).registers.a_reg = 0 ∧
    (reset e).registers.x_reg = 0 ∧
    (reset e).registers.y_reg = 0 ∧
    (reset e).registers.stack_pointer = 0xFD ∧
    (reset e).registers.cpu_flags = 0 ∧
    (reset e).fetched_data = 0 ∧
    (reset e).address_absolute = 0 ∧
    (reset e).address_relative = 0 := by
  simp [reset, read_byte, h1, h2]

/-- Witness for C5 at a concrete machine state. -/
theorem C5_reset_state_witness :
    (reset stRST).registers.program_counter = 0x8000 ∧
    (reset stRST).registers.a_reg = 0 ∧
    (reset stRST).registers.x_reg = 0 ∧
    (reset stRST).registers.y_reg = 0 ∧
    (reset stRST).registers.stack_pointer = 0xFD ∧
    (reset stRST).registers.cpu_flags = 0 ∧
    (reset stRST).fetched_data = 0 ∧
    (reset stRST).address_absolute = 0 ∧
    (reset stRST).address_relative = 0 :=
  C5_reset_state stRST rfl rfl

set_option maxHeartbeats 1000000 in
/-- Claim C9: for every 8-bit accumulator value and 8-bit stack pointer
(including the wraparound values), `pha` followed immediately by `pla`
restores the accumulator and the stack pointer. -/
theorem C9_stack_round_trip (e : Emulator)
    (ha : e.registers.a_reg < 256) (hsp : e.registers.stack_pointer < 256) :
    (pla (pha e).1).1.registers.a_reg = e.registers.a_reg ∧
    (pla (pha e).1).1.registers.stack_pointer = e.registers.stack_pointer := by
  have hsp2 : ((e.registers.stack_pointer + 255) % 256 + 1) % 256 =
      e.registers.stack_pointer := by omega
  simp only [pha, pla, write_byte, read_byte, handle_flags, hsp2]
  simp [Nat.mod_eq_of_lt ha]

/-- Witness for C9 at accumulator 0x42 and stack pointer 0x00. -/
theorem C9_stack_round_trip_witness :
    (pla (pha stSTK).1).1.registers.a_reg = 0x42 ∧
    (pla (pha stSTK).1).1.registers.stack_pointer = 0 :=
  C9_stack_round_trip stSTK (by decide) (by decide)

/-- Claim C1 (code bug, evaluated at the failing input): at A = 0x80,
operand = 0x7F, carry-in = 1 the sum is 0x100, so the 8-bit result is 0x00
and the claim's overflow formula `(A ^^^ operand) &&& (A ^^^ result) &&& 0x80`
is nonzero; but the code leaves the flag byte at 0x01, i.e. the zero flag
(bit 1) stays clear — `handle_flags` tested the 9-bit sum 0x100 against 0 —
and the overflow flag (bit 6) stays clear, because the source discards the
results of its `set_bit`/`unset_bit` calls on the overflow branch. -/
theorem C1_adc_flags_diverge :
    (adc stADC).map (fun p => (p.1.registers.a_reg, p.1.registers.cpu_flags)) =
      .ok (0x00, 0x01) ∧
    get_flag 0x01 1 = 0 ∧
    get_flag 0x01 6 = 0 ∧
    (0x80 ^^^ 0x7F) &&& (0x80 ^^^ 0x00) &&& 0x80 ≠ 0 := by
  decide

/-- Claim C3 (code bug, evaluated at the failing input): with the opcode at
0x8000, operand byte 0x05 at 0x8001 and the following byte 0x01 at 0x8002,
`relative_mode` advances the program counter by two (to 0x8002, not 0x8001)
and sets the relative offset to 0x0105 — the byte after the operand is
folded into the high half — instead of the sign-extended single byte
0x0005. -/
theorem C3_relative_mode_diverges :
    (relative_mode stREL).1.registers.program_counter = 0x8002 ∧
    (relative_mode stREL).1.address_relative = 0x0105 ∧
    stREL.registers.program_counter = 0x8000 ∧
    read_byte stREL 0x8001 = 0x05 := by
  decide

/-- Claim C4 (code bug, evaluated at the failing input): with X = 0x80 and a
cleared flag byte, `txs` copies X into the stack pointer but also rewrites
the flag byte to 0x80 (negative flag set), where the claim requires the flag
byte to stay 0x00. -/
theorem C4_txs_sets_flags :
    (txs stTXS).1.registers.stack_pointer = 0x80 ∧
    stTXS.registers.cpu_flags = 0x00 ∧
    (txs stTXS).1.registers.cpu_flags = 0x80 := by
  decide

set_option maxHeartbeats 2000000 in
/-- Claim C8: with the interrupt-disable flag (bit 2) set, `irq` leaves the
whole machine state unchanged; `nmi` performs its push-and-vector sequence
regardless of that flag (three stack pushes, program counter loaded from the
0xFFFA/0xFFFB vector, 8 cycles); an honored `irq` loads the program counter
from the 0xFFFE/0xFFFF vector at a cycle cost of 7. -/
theorem C8_interrupt_masking (e : Emulator)
    (hsp : e.registers.stack_pointer < 256) :
    (get_flag e.registers.cpu_flags 2 ≠ 0 → irq e = e) ∧
    ((nmi e).registers.program_counter =
        ((read_byte e 0xFFFB) <<< 8) ||| read_byte e 0xFFFA ∧
      (nmi e).cycles = 8 ∧
      (nmi e).registers.stack_pointer =
        (e.registers.stack_pointer + 253) % 256) ∧
    (get_flag e.registers.cpu_flags 2 = 0 →
      (irq e).registers.program_counter =
          ((read_byte e 0xFFFF) <<< 8) ||| read_byte e 0xFFFE ∧
        (irq e).cycles = 7) := by
  refine ⟨?_, ?_, ?_⟩
  · intro h
    unfold irq
    rw [if_neg h]
  · unfold nmi
    simp only [write_byte, read_byte, set_bit]
    refine ⟨?_, trivial, by omega⟩
    rw [if_neg (by omega), if_neg (by omega), if_neg (by omega),
        if_neg (by omega), if_neg (by omega), if_neg (by omega)]
  · intro h
    unfold irq
    rw [if_pos h]
    simp only [write_byte, read_byte, set_bit]
    refine ⟨?_, trivial⟩
    rw [if_neg (by omega), if_neg (by omega), if_neg (by omega),
        if_neg (by omega), if_neg (by omega), if_neg (by omega)]

/-- Witness for C8: a masked `irq` is the identity on a concrete state with
bit 2 set, `nmi` on the same state still vectors through 0xFFFA/0xFFFB, and
an honored `irq` on the bit-2-clear state vectors through 0xFFFE/0xFFFF with
7 cycles. -/
theorem C8_interrupt_masking_witness :
    irq stIRQmasked = stIRQmasked ∧
    (nmi stIRQmasked).registers.program_counter = 0xBBAA ∧
    (nmi stIRQmasked).cycles = 8 ∧
    (irq stIRQclear).registers.program_counter = 0xDDCC ∧
    (irq stIRQclear).cycles = 7 := by
  obtain ⟨h1, h2, -⟩ := C8_interrupt_masking stIRQmasked (by decide)
  obtain ⟨-, -, h3⟩ := C8_interrupt_masking stIRQclear (by decide)
  obtain ⟨g1, g2⟩ := h3 (by decide)
  exact ⟨h1 (by decide), h2.1.trans (by decide), h2.2.1,
    g1.trans (by decide), g2⟩



set_option maxRecDepth 4000 in
/-- Every entry of the instruction table is one of its 19 transcribed
descriptors. -/
theorem table_entries (k : Nat) (i : Instruction)
    (h : INSTRUCTION_TABLE k = some i) :
    i = ⟨.Implied, .RTI, 6⟩ ∨ i = ⟨.Implied, .SEI, 2⟩ ∨ i = ⟨.Implied, .CLD, 2⟩ ∨
    i = ⟨.Implied, .BRK, 7⟩ ∨ i = ⟨.Immediate, .LDX, 2⟩ ∨
    i = ⟨.Immediate, .LDA, 2⟩ ∨ i = ⟨.ZeroPageX, .STA, 4⟩ ∨
    i = ⟨.Implied, .DEX, 2⟩ ∨ i = ⟨.Implied, .INX, 2⟩ ∨ i = ⟨.Implied, .TXS, 2⟩ ∨
    i = ⟨.Relative, .BNE, 2⟩ ∨ i = ⟨.Immediate, .ADC, 2⟩ ∨
    i = ⟨.ZeroPage, .ADC, 3⟩ ∨ i = ⟨.ZeroPageX, .ADC, 4⟩ ∨
    i = ⟨.Absolute, .ADC, 4⟩ ∨ i = ⟨.AbsoluteX, .ADC, 4⟩ ∨
    i = ⟨.AbsoluteY, .ADC, 4⟩ ∨ i = ⟨.IndirectX, .ADC, 6⟩ ∨
    i = ⟨.IndirectY, .ADC, 5⟩ := by
  delta INSTRUCTION_TABLE at h
  by_cases h1 : k = 0x40
  · rw [if_pos h1] at h
    obtain rfl := (Option.some.inj h).symm
    decide
  · rw [if_neg h1] at h
    by_cases h2 : k = 0x78
    · rw [if_pos h2] at h
      obtain rfl := (Option.some.inj h).symm
      decide
    · rw [if_neg h2] at h
      by_cases h3 : k = 0xD8
      · rw [if_pos h3] at h
        obtain rfl := (Option.some.inj h).symm
        decide
      · rw [if_neg h3] at h
        by_cases h4 : k = 0x00
        · rw [if_pos h4] at h
          obtain rfl := (Option.some.inj h).symm
          decide
        · rw [if_neg h4] at h
          by_cases h5 : k = 0xA2
          · rw [if_pos h5] at h
            obtain rfl := (Option.some.inj h).symm
            decide
          · rw [if_neg h5] at h
            by_cases h6 : k = 0xA9
            · rw [if_pos h6] at h
              obtain rfl := (Option.some.inj h).symm
              decide
            · rw [if_neg h6] at h
              by_cases h7 : k = 0x95
              · rw [if_pos h7] at h
                obtain rfl := (Option.some.inj h).symm
                decide
              · rw [if_neg h7] at h
                by_cases h8 : k = 0xCA
                · rw [if_pos h8] at h
                  obtain rfl := (Option.some.inj h).symm
                  decide
                · rw [if_neg h8] at h
                  by_cases h9 : k = 0xE8
                  · rw [if_pos h9] at h
                    obtain rfl := (Option.some.inj h).symm
                    decide
                  · rw [if_neg h9] at h
                    by_cases h10 : k = 0x9A
                    · rw [if_pos h10] at h
                      obtain rfl := (Option.some.inj h).symm
                      decide
                    · rw [if_neg h10] at h
                      by_cases h11 : k = 0xD0
                      · rw [if_pos h11] at h
                        obtain rfl := (Option.some.inj h).symm
                        decide
                      · rw [if_neg h11] at h
                        by_cases h12 : k = 0x69
                        · rw [if_pos h12] at h
                          obtain rfl := (Option.some.inj h).symm
                          decide
                        · rw [if_neg h12] at h
                          by_cases h13 : k = 0x65
                          · rw [if_pos h13] at h
                            obtain rfl := (Option.some.inj h).symm
                            decide
                          · rw [if_neg h13] at h
                            by_cases h14 : k = 0x75
                            · rw [if_pos h14] at h
                              obtain rfl := (Option.some.inj h).symm
                              decide
                            · rw [if_neg h14] at h
                              by_cases h15 : k = 0x6D
                              · rw [if_pos h15] at h
                                obtain rfl := (Option.some.inj h).symm
                                decide
                              · rw [if_neg h15] at h
                                by_cases h16 : k = 0x7D
                                · rw [if_pos h16] at h
                                  obtain rfl := (Option.some.inj h).symm
                                  decide
                                · rw [if_neg h16] at h
                                  by_cases h17 : k = 0x79
                                  · rw [if_pos h17] at h
                                    obtain rfl := (Option.some.inj h).symm
                                    decide
                                  · rw [if_neg h17] at h
                                    by_cases h18 : k = 0x61
                                    · rw [if_pos h18] at h
                                      obtain rfl := (Option.some.inj h).symm
                                      decide
                                    · rw [if_neg h18] at h
                                      by_cases h19 : k = 0x71
                                      · rw [if_pos h19] at h
                                        obtain rfl := (Option.some.inj h).symm
                                        decide
                                      · rw [if_neg h19] at h
                                        exact Option.noConfusion h


/-- `ldx` on a state in the Immediate addressing mode succeeds, returns the
extra-cycle value 0, and leaves the current addressing mode unchanged. -/
theorem ldx_immediate_ok (e : Emulator) (hm : e.current_mode = .Immediate) :
    ∃ q, ldx e = .ok (q, 0) ∧ q.current_mode = .Immediate := by
  unfold ldx fetch
  rw [hm]
  refine ⟨_, rfl, ?_⟩
  split_ifs <;> exact hm

/-- The LDX dispatch arm (which runs `ldx` twice) succeeds on every state in
the Immediate addressing mode and never takes the early-return path. -/
theorem execute_operation_ldx_ok (e : Emulator) (hm : e.current_mode = .Immediate) :
    ∃ q, execute_operation Operation.LDX e = .ok (q, false) := by
  obtain ⟨p, hp, hpm⟩ := ldx_immediate_ok e hm
  obtain ⟨r, hr, -⟩ := ldx_immediate_ok p hpm
  simp only [execute_operation, hp, hr]
  exact ⟨_, rfl⟩

set_option maxHeartbeats 2000000 in
set_option maxRecDepth 8000 in
/-- Claim C10 (amended): executing any opcode the table pairs with an
operand-fetching operation and a non-Implied/Immediate addressing mode — the
ADC entries, including the Immediate one — reaches the
`unreachable!("Operation Not In Instruction Table")` panic in
`execute_instruction`'s operation match, because that match has no ADC arm;
the `unreachable!("Unknown Addressing State")` branch of `fetch` is never
reached for any opcode under the table as built. -/
theorem C10_operation_dispatch_faults (e : Emulator) :
    (∀ i, INSTRUCTION_TABLE e.opcode = some i →
        i.operation = Operation.ADC →
        execute_instruction e = .error Fault.OperationNotInTable) ∧
    execute_instruction e ≠ .error Fault.UnknownAddressingState := by
  constructor
  · intro i htab hop
    rcases table_entries _ _ htab with h|h|h|h|h|h|h|h|h|h|h|h|h|h|h|h|h|h|h <;>
      subst h <;>
      first
      | exact absurd hop (by decide)
      | (unfold execute_instruction; rw [htab]; rfl)
  · intro hcon
    rcases htab : INSTRUCTION_TABLE e.opcode with _ | i
    · unfold execute_instruction at hcon
      rw [htab] at hcon
      exact absurd (Except.error.inj hcon) (by decide)
    · rcases table_entries _ _ htab with h|h|h|h|h|h|h|h|h|h|h|h|h|h|h|h|h|h|h <;>
        subst h <;>
        (unfold execute_instruction at hcon; rw [htab] at hcon) <;>
        first
        | exact Except.noConfusion hcon
        | exact absurd (Except.error.inj hcon) (by decide)
        | (rcases hA : execute_addressing ⟨.Immediate, .LDX, 2⟩ e with f | e1
           · simp [execute_addressing] at hA
           · have hm : e1.current_mode = .Immediate := by
               simp only [execute_addressing] at hA
               obtain rfl := Except.ok.inj hA
               rfl
             obtain ⟨q, hq⟩ := execute_operation_ldx_ok e1 hm
             simp only [hA, hq] at hcon
             simp at hcon)

/-- Claim C10 counterexample: executing opcode 0x65 (ADC zero page, the
claim's own example) faults with `Operation Not In Instruction Table` from
the operation dispatch — it does not reach the
`Unknown Addressing State` panic in `fetch` that the claim names. -/
theorem C10_counterexample_not_fetch_panic :
    execute_instruction stOP65 = .error Fault.OperationNotInTable ∧
    execute_instruction stOP65 ≠ .error Fault.UnknownAddressingState := by
  constructor
  · rfl
  · intro hc
    have h : Fault.OperationNotInTable = Fault.UnknownAddressingState :=
      Except.error.inj
        ((rfl :
          execute_instruction stOP65 =
            .error Fault.OperationNotInTable).symm.trans hc)
    exact absurd h (by decide)

/-- Witness for C10 at opcode 0x69 (ADC immediate). -/
theorem C10_operation_dispatch_faults_witness :
    execute_instruction stOP69 = .error Fault.OperationNotInTable ∧
    execute_instruction stOP69 ≠ .error Fault.UnknownAddressingState := by
  obtain ⟨h1, h2⟩ := C10_operation_dispatch_faults stOP69
  exact ⟨h1 ⟨.Immediate, .ADC, 2⟩ rfl rfl, h2⟩



/-- Running `ldx` in the Immediate addressing mode succeeds with extra-cycle
value 0, preserves the addressing mode, the absolute address and the program
counter, and adds one wrapped cycle exactly when the page-cross test fires. -/
theorem ldx_immediate_cycles (e : Emulator) (hm : e.current_mode = .Immediate) :
    ∃ q, ldx e = .ok (q, 0) ∧ q.current_mode = .Immediate ∧
      q.address_absolute = e.address_absolute ∧
      q.registers.program_counter = e.registers.program_counter ∧
      q.cycles = (if (e.address_absolute &&& 0xFF00) ≠
          (e.registers.program_counter &&& 0xFF00)
        then (e.cycles + 1) % 256 else e.cycles) := by
  unfold ldx fetch
  rw [hm]
  refine ⟨_, rfl, ?_, ?_, ?_, ?_⟩ <;>
    (simp only [handle_flags]
     split_ifs <;> first | rfl | exact hm)

/-- The LDX dispatch arm (which runs `ldx` twice) succeeds in the Immediate
addressing mode and charges the page-cross penalty twice. -/
theorem execute_operation_ldx_cycles (e : Emulator)
    (hm : e.current_mode = .Immediate) (hc : e.cycles < 256) :
    ∃ q, execute_operation Operation.LDX e = .ok (q, false) ∧
      q.cycles = (if (e.address_absolute &&& 0xFF00) ≠
          (e.registers.program_counter &&& 0xFF00)
        then ((e.cycles + 1) % 256 + 1) % 256 else e.cycles) := by
  obtain ⟨p, hp, hpm, hpa, hppc, hpc⟩ := ldx_immediate_cycles e hm
  obtain ⟨r, hr, -, -, -, hrc⟩ := ldx_immediate_cycles p hpm
  simp only [execute_operation, hp, hr]
  refine ⟨_, rfl, ?_⟩
  simp only [Nat.add_zero]
  show (((r.cycles) % 256)) = _
  rw [hrc, hpa, hppc, hpc]
  split_ifs <;> omega



set_option maxHeartbeats 4000000 in
set_option maxRecDepth 8000 in
/-- Claim C2 (amended): a tick with the remaining-cycle counter at zero
performs one fetch-decode-execute cycle and leaves the counter at the
descriptor's base cycles plus the addressing-mode surcharge plus the
operation surcharge MINUS ONE, because the unconditional end-of-tick
decrement also applies on the executing tick; a tick with a nonzero counter
only decrements it by one and changes nothing else. -/
theorem C2_tick_contract (e : Emulator) (hc : e.cycles < 256) :
    (∀ e2, e.cycles = 0 → clock e = .ok e2 →
        e2.cycles + 1 =
          base_cycles e + addressing_surcharge e + operation_surcharge e) ∧
    (e.cycles ≠ 0 → clock e = .ok {e with cycles := e.cycles - 1}) := by
  constructor
  · intro e2 h0 hclock
    unfold clock at hclock
    rw [if_pos h0] at hclock
    unfold execute_instruction at hclock
    simp only [tick_fetch] at hclock
    rcases htab : INSTRUCTION_TABLE (read_byte e e.registers.program_counter)
      with _ | i
    · rw [htab] at hclock
      exact Except.noConfusion hclock
    · rcases table_entries _ _ htab with
        h|h|h|h|h|h|h|h|h|h|h|h|h|h|h|h|h|h|h <;> subst h <;>
        rw [htab] at hclock
      · obtain rfl := Except.ok.inj hclock
        simp [base_cycles, addressing_surcharge, operation_surcharge,
          tick_fetch, htab, execute_addressing, execute_operation,
          implied_mode, immediate_mode, zero_page_x_mode, relative_mode,
          rti, sei, cld, lda, sta, dex, inx, txs, bne, fetch,
          handle_flags, write_byte,
          apply_ite Emulator.cycles, apply_ite Prod.fst, apply_ite Prod.snd,
          h0]
        all_goals first | (split_ifs <;> omega) | omega
      · obtain rfl := Except.ok.inj hclock
        simp [base_cycles, addressing_surcharge, operation_surcharge,
          tick_fetch, htab, execute_addressing, execute_operation,
          implied_mode, immediate_mode, zero_page_x_mode, relative_mode,
          rti, sei, cld, lda, sta, dex, inx, txs, bne, fetch,
          handle_flags, write_byte,
          apply_ite Emulator.cycles, apply_ite Prod.fst, apply_ite Prod.snd,
          h0]
        all_goals first | (split_ifs <;> omega) | omega
      · obtain rfl := Except.ok.inj hclock
        simp [base_cycles, addressing_surcharge, operation_surcharge,
          tick_fetch, htab, execute_addressing, execute_operation,
          implied_mode, immediate_mode, zero_page_x_mode, relative_mode,
          rti, sei, cld, lda, sta, dex, inx, txs, bne, fetch,
          handle_flags, write_byte,
          apply_ite Emulator.cycles, apply_ite Prod.fst, apply_ite Prod.snd,
          h0]
        all_goals first | (split_ifs <;> omega) | omega
      · obtain rfl := Except.ok.inj hclock
        simp [base_cycles, addressing_surcharge, operation_surcharge,
          tick_fetch, htab, execute_addressing, execute_operation,
          implied_mode, immediate_mode, zero_page_x_mode, relative_mode,
          rti, sei, cld, lda, sta, dex, inx, txs, bne, fetch,
          handle_flags, write_byte,
          apply_ite Emulator.cycles, apply_ite Prod.fst, apply_ite Prod.snd,
          h0]
        all_goals first | (split_ifs <;> omega) | omega
      · rcases hA : execute_addressing ⟨.Immediate, .LDX, 2⟩
            {e with opcode := read_byte e e.registers.program_counter}
            with f | E1
        · simp [execute_addressing] at hA
        · have hm : E1.current_mode = .Immediate := by
            simp only [execute_addressing] at hA
            obtain rfl := Except.ok.inj hA
            rfl
          have hcy : E1.cycles = (e.cycles + 2) % 256 := by
            simp only [execute_addressing] at hA
            obtain rfl := Except.ok.inj hA
            rfl
          obtain ⟨q, hq, hqc⟩ :=
            execute_operation_ldx_cycles E1 hm (by rw [hcy]; omega)
          simp only [hA, hq] at hclock
          obtain rfl := Except.ok.inj hclock
          simp [base_cycles, addressing_surcharge, operation_surcharge,
            tick_fetch, htab, hA, hq, hqc, hcy]
          all_goals first | (split_ifs <;> omega) | omega
      · obtain rfl := Except.ok.inj hclock
        simp [base_cycles, addressing_surcharge, operation_surcharge,
          tick_fetch, htab, execute_addressing, execute_operation,
          implied_mode, immediate_mode, zero_page_x_mode, relative_mode,
          rti, sei, cld, lda, sta, dex, inx, txs, bne, fetch,
          handle_flags, write_byte,
          apply_ite Emulator.cycles, apply_ite Prod.fst, apply_ite Prod.snd,
          h0]
        all_goals first | (split_ifs <;> omega) | omega
      · obtain rfl := Except.ok.inj hclock
        simp [base_cycles, addressing_surcharge, operation_surcharge,
          tick_fetch, htab, execute_addressing, execute_operation,
          implied_mode, immediate_mode, zero_page_x_mode, relative_mode,
          rti, sei, cld, lda, sta, dex, inx, txs, bne, fetch,
          handle_flags, write_byte,
          apply_ite Emulator.cycles, apply_ite Prod.fst, apply_ite Prod.snd,
          h0]
        all_goals first | (split_ifs <;> omega) | omega
      · obtain rfl := Except.ok.inj hclock
        simp [base_cycles, addressing_surcharge, operation_surcharge,
          tick_fetch, htab, execute_addressing, execute_operation,
          implied_mode, immediate_mode, zero_page_x_mode, relative_mode,
          rti, sei, cld, lda, sta, dex, inx, txs, bne, fetch,
          handle_flags, write_byte,
          apply_ite Emulator.cycles, apply_ite Prod.fst, apply_ite Prod.snd,
          h0]
        all_goals first | (split_ifs <;> omega) | omega
      · obtain rfl := Except.ok.inj hclock
        simp [base_cycles, addressing_surcharge, operation_surcharge,
          tick_fetch, htab, execute_addressing, execute_operation,
          implied_mode, immediate_mode, zero_page_x_mode, relative_mode,
          rti, sei, cld, lda, sta, dex, inx, txs, bne, fetch,
          handle_flags, write_byte,
          apply_ite Emulator.cycles, apply_ite Prod.fst, apply_ite Prod.snd,
          h0]
        all_goals first | (split_ifs <;> omega) | omega
      · obtain rfl := Except.ok.inj hclock
        simp [base_cycles, addressing_surcharge, operation_surcharge,
          tick_fetch, htab, execute_addressing, execute_operation,
          implied_mode, immediate_mode, zero_page_x_mode, relative_mode,
          rti, sei, cld, lda, sta, dex, inx, txs, bne, fetch,
          handle_flags, write_byte,
          apply_ite Emulator.cycles, apply_ite Prod.fst, apply_ite Prod.snd,
          h0]
        all_goals first | (split_ifs <;> omega) | omega
      · obtain rfl := Except.ok.inj hclock
        simp [base_cycles, addressing_surcharge, operation_surcharge,
          tick_fetch, htab, execute_addressing, execute_operation,
          implied_mode, immediate_mode, zero_page_x_mode, relative_mode,
          rti, sei, cld, lda, sta, dex, inx, txs, bne, fetch,
          handle_flags, write_byte,
          apply_ite Emulator.cycles, apply_ite Prod.fst, apply_ite Prod.snd,
          h0]
        all_goals first | (split_ifs <;> omega) | omega
      · exact Except.noConfusion hclock
      · exact Except.noConfusion hclock
      · exact Except.noConfusion hclock
      · exact Except.noConfusion hclock
      · exact Except.noConfusion hclock
      · exact Except.noConfusion hclock
      · exact Except.noConfusion hclock
      · exact Except.noConfusion hclock
  · intro h
    unfold clock
    rw [if_neg h]
    have hdec : (e.cycles + 255) % 256 = e.cycles - 1 := by omega
    rw [hdec]

/-- Claim C2 counterexample: on the idle state about to fetch `LDA #$05`
(base 2 cycles, no surcharges) a tick leaves the counter at 1, not at the
claimed base-plus-surcharges value 2. -/
theorem C2_tick_counterexample :
    (clock stCLK).map Emulator.cycles = .ok 1 ∧
    base_cycles stCLK + addressing_surcharge stCLK + operation_surcharge stCLK = 2 ∧
    (clock stCLK).map Emulator.cycles ≠
      .ok (base_cycles stCLK + addressing_surcharge stCLK +
        operation_surcharge stCLK) := by
  exact ⟨by decide, by decide, by decide⟩

/-- Witness for C2: the amended contract evaluated on the `LDA #$05` state
(executing tick ends with counter 2 - 1 = 1) and on the same machine with
three cycles outstanding (pure decrement to 2). -/
theorem C2_tick_contract_witness :
    (clock stCLK).map Emulator.cycles = .ok 1 ∧
    base_cycles stCLK + addressing_surcharge stCLK + operation_surcharge stCLK = 2 ∧
    clock {stCLK with cycles := 3} = .ok {stCLK with cycles := 2} := by
  refine ⟨by decide, ?_, ?_⟩
  · rcases hres : clock stCLK with f | e2
    · have hmap : (clock stCLK).map Emulator.cycles = .ok 1 := by decide
      rw [hres] at hmap
      exact Except.noConfusion hmap
    · have h1 := ((C2_tick_contract stCLK (by decide)).1) e2 (by decide) hres
      have hc2 : e2.cycles = 1 := by
        have hmap : (clock stCLK).map Emulator.cycles = .ok 1 := by decide
        rw [hres] at hmap
        exact Except.ok.inj hmap
      omega
  · exact (C2_tick_contract {stCLK with cycles := 3} (by decide)).2 (by decide)

end RNes
